import Mathlib

/-!
Shallow embedding of `src/packages/payments-plugin/src/stripe/stripe.controller.ts`
(the Stripe webhook reconciliation core of the Vendure payments plugin).

The controller's external collaborators (Stripe SDK signature verification,
ChannelService, OrderService, payment-method repository) are modelled as an
explicit environment of functions; the Order Gateway's durable order state is
threaded through as an abstract state type `σ`.  The pipeline records every
outbound call in a trace, the HTTP response it writes (if any), and the log
entries it emits, so that the control-flow and framing properties of the
controller can be stated and proved.
-/

namespace StripeWebhook

/-- Severity of a `Logger` call in the controller (`Logger.error` /
`Logger.warn` / `Logger.info`). -/
inductive LogLevel
  | error
  | warn
  | info
deriving DecidableEq, Repr

/-- One structured log entry emitted during the handling of a delivery. -/
structure LogEntry where
  level : LogLevel
  message : String
deriving DecidableEq, Repr

/-- The correlation metadata embedded in the payment intent
(`paymentIntent.metadata`): each field may be absent, as the controller
destructures them without any presence check. -/
structure PaymentIntentMetadata where
  channelToken : Option String := none
  orderCode : Option String := none
  orderId : Option String := none
deriving DecidableEq, Repr

/-- The `paymentIntent.last_payment_error` object, of which the controller
reads only the optional `message` field. -/
structure LastPaymentError where
  message : Option String := none
deriving DecidableEq, Repr

/-- The Stripe payment-intent object found at `event.data.object`. -/
structure PaymentIntent where
  id : String
  metadata : Option PaymentIntentMetadata := none
  last_payment_error : Option LastPaymentError := none
deriving DecidableEq, Repr

/-- The Stripe event envelope: the type tag and the embedded object
(`event.data.object`, which the controller checks for presence). -/
structure StripeEvent where
  type : String
  object : Option PaymentIntent
deriving DecidableEq, Repr

/-- A Vendure channel, as returned by `ChannelService.getChannelFromToken`. -/
structure Channel where
  token : String
deriving DecidableEq, Repr

/-- The `RequestContext` constructed by `StripeController.createContext`:
only the fields the constructor call sets explicitly are modelled. -/
structure RequestContext where
  apiType : String
  isAuthorized : Bool
  authorizedAsOwnerOnly : Bool
  channel : Channel
  languageCode : String
deriving DecidableEq, Repr

/-- A configured Vendure payment method: its own `code` and its handler's code
(`method.handler.code`). -/
structure PaymentMethod where
  code : String
  handlerCode : String
deriving DecidableEq, Repr

/-- Result of `OrderService.transitionToState` as the controller observes it:
either an order (success) or an `OrderStateTransitionError` carrying a
message. -/
inductive TransitionResult
  | ok
  | transitionError (message : String)
deriving DecidableEq, Repr

/-- Result of `OrderService.addPaymentToOrder` as the controller observes it:
either an `Order` instance (success) or an error-result union member carrying
a message. -/
inductive AttachResult
  | ok
  | err (message : String)
deriving DecidableEq, Repr

/-- One outbound call made while handling a delivery, in order.  The
transition and attach entries also record whether the collaborator reported
success, so traces describe both the call and its observed result. -/
inductive ExtCall
  | constructEvent
  | getChannelFromToken (token : Option String)
  | transitionToState (orderId : Option String) (target : String) (ok : Bool)
  | findPaymentMethods
  | addPaymentToOrder (orderId : Option String) (method : String) (paymentIntentId : String) (ok : Bool)
deriving DecidableEq, Repr

/-- Terminal outcome of one delivery, one per `return` path of the webhook
handler, plus `threw` for the exceptions the handler deliberately lets
escape. -/
inductive Outcome
  | rejectedMissingSignature
  | rejectedSignatureMismatch
  | rejectedNoPaymentIntent
  | ignoredPaymentFailed
  | ignoredOtherEvent
  | transitionFailed
  | attachFailed
  | succeeded
  | threw (message : String)
deriving DecidableEq, Repr

/-- Everything observable about one run of the webhook handler: the terminal
outcome, the HTTP response written to the injected `response` object (status
code and body) if any, the log entries, the outbound-call trace, and the
final Order Gateway state. -/
structure RunResult (σ : Type) where
  outcome : Outcome
  response : Option (Nat × String)
  logs : List LogEntry
  calls : List ExtCall
  state : σ
deriving DecidableEq, Repr

/-- The external collaborators injected into `StripeController`, over an
abstract Order Gateway state `σ`.  `payments s` observes the payment records
(by payment-intent id) present in gateway state `s`; it is used only to state
idempotency properties. -/
structure Env (σ : Type) where
  constructEventFromPayload : List Nat → String → Except String StripeEvent
  getChannelFromToken : Option String → Except String Channel
  transitionToState : RequestContext → Option String → String → σ → TransitionResult × σ
  findPaymentMethods : RequestContext → List PaymentMethod
  addPaymentToOrder : RequestContext → Option String → String → String → σ → AttachResult × σ
  payments : σ → List String

def missingHeaderErrorMessage : String := "Missing stripe-signature header"

def signatureErrorMessage : String := "Error verifying Stripe webhook signature"

def noPaymentIntentErrorMessage : String := "No payment intent in the event payload"

/-- Modelled from the spec: the component tag used for logging, imported from
`./constants` which is not part of the surveyed sources; its exact value is
immaterial to every claim. -/
def loggerCtx : String := "StripePlugin"

/-- Modelled from the spec: the gateway's stable handler code
(`stripePaymentMethodHandler.code` from `./stripe.handler`, not part of the
surveyed sources).  The controller only ever compares handler codes against
this constant, so its exact value is immaterial. -/
def stripeHandlerCode : String := "stripe"

/-- The numeric value of `HttpStatus.BAD_REQUEST`. -/
def httpBadRequest : Nat := 400

/-- How a JavaScript template literal renders a possibly-undefined string. -/
def optStr : Option String → String
  | some s => s
  | none => "undefined"

/-- Translation of `StripeController.createContext`: resolves the channel from the token and
builds a fully authorized admin `RequestContext`.  A resolution failure
propagates as an exception (`Except.error`). -/
def createContext {σ : Type} (env : Env σ) (channelToken : Option String) :
    Except String RequestContext :=
  match env.getChannelFromToken channelToken with
  | .error msg => .error msg
  | .ok channel =>
    .ok { apiType := "admin"
          isAuthorized := true
          authorizedAsOwnerOnly := false
          channel := channel
          languageCode := "en" }

/-- Translation of `StripeController.getPaymentMethod`: scans all configured payment methods
for one whose handler code is the Stripe handler code, and throws an
`InternalServerError` when none matches. -/
def getPaymentMethod {σ : Type} (env : Env σ) (ctx : RequestContext) :
    Except String PaymentMethod :=
  match (env.findPaymentMethods ctx).find? (fun m => m.handlerCode == stripeHandlerCode) with
  | some m => .ok m
  | none => .error ("[" ++ loggerCtx ++ "] Could not find Stripe PaymentMethod")

/-- Translation of `StripeController.webhook`: the full pipeline for one delivery, from the
signature-header check to the final success log, recording the response, the
logs and the outbound-call trace of every path. -/
def webhook {σ : Type} (env : Env σ) (s0 : σ) (signature : Option String)
    (rawBody : List Nat) : RunResult σ :=
  match signature with
  | none =>
    { outcome := .rejectedMissingSignature
      response := some (httpBadRequest, missingHeaderErrorMessage)
      logs := [⟨.error, missingHeaderErrorMessage⟩]
      calls := []
      state := s0 }
  | some sig =>
    match env.constructEventFromPayload rawBody sig with
    | .error emsg =>
      { outcome := .rejectedSignatureMismatch
        response := some (httpBadRequest, signatureErrorMessage)
        logs := [⟨.error, signatureErrorMessage ++ " " ++ sig ++ ": " ++ emsg⟩]
        calls := [.constructEvent]
        state := s0 }
    | .ok event =>
      match event.object with
      | none =>
        { outcome := .rejectedNoPaymentIntent
          response := some (httpBadRequest, noPaymentIntentErrorMessage)
          logs := [⟨.error, noPaymentIntentErrorMessage⟩]
          calls := [.constructEvent]
          state := s0 }
      | some paymentIntent =>
        let channelToken := paymentIntent.metadata.bind (fun m => m.channelToken)
        let orderCode := paymentIntent.metadata.bind (fun m => m.orderCode)
        let orderId := paymentIntent.metadata.bind (fun m => m.orderId)
        if event.type = "payment_intent.payment_failed" then
          let message := paymentIntent.last_payment_error.bind (fun e => e.message)
          { outcome := .ignoredPaymentFailed
            response := none
            logs := [⟨.warn, "Payment for order " ++ optStr orderCode ++ " failed: " ++ optStr message⟩]
            calls := [.constructEvent]
            state := s0 }
        else if event.type ≠ "payment_intent.succeeded" then
          { outcome := .ignoredOtherEvent
            response := none
            logs := [⟨.info, "Received " ++ event.type ++ " status update for order " ++ optStr orderCode⟩]
            calls := [.constructEvent]
            state := s0 }
        else
          match createContext env channelToken with
          | .error emsg =>
            { outcome := .threw emsg
              response := none
              logs := []
              calls := [.constructEvent, .getChannelFromToken channelToken]
              state := s0 }
          | .ok ctx =>
            match env.transitionToState ctx orderId "ArrangingPayment" s0 with
            | (.transitionError emsg, s1) =>
              { outcome := .transitionFailed
                response := none
                logs := [⟨.error, "Error transitioning order " ++ optStr orderCode ++
                          " to ArrangingPayment state: " ++ emsg⟩]
                calls := [.constructEvent, .getChannelFromToken channelToken,
                          .transitionToState orderId "ArrangingPayment" false]
                state := s1 }
            | (.ok, s1) =>
              match getPaymentMethod env ctx with
              | .error emsg =>
                { outcome := .threw emsg
                  response := none
                  logs := []
                  calls := [.constructEvent, .getChannelFromToken channelToken,
                            .transitionToState orderId "ArrangingPayment" true,
                            .findPaymentMethods]
                  state := s1 }
              | .ok method =>
                match env.addPaymentToOrder ctx orderId method.code paymentIntent.id s1 with
                | (.err emsg, s2) =>
                  { outcome := .attachFailed
                    response := none
                    logs := [⟨.error, "Error adding payment to order " ++ optStr orderCode ++
                              ": " ++ emsg⟩]
                    calls := [.constructEvent, .getChannelFromToken channelToken,
                              .transitionToState orderId "ArrangingPayment" true,
                              .findPaymentMethods,
                              .addPaymentToOrder orderId method.code paymentIntent.id false]
                    state := s2 }
                | (.ok, s2) =>
                  { outcome := .succeeded
                    response := none
                    logs := [⟨.info, "Stripe payment intent id " ++ paymentIntent.id ++
                              " added to order " ++ optStr orderCode⟩]
                    calls := [.constructEvent, .getChannelFromToken channelToken,
                              .transitionToState orderId "ArrangingPayment" true,
                              .findPaymentMethods,
                              .addPaymentToOrder orderId method.code paymentIntent.id true]
                    state := s2 }

/-! ### Concrete test fixtures

A small executable environment used by witnesses and counterexamples.  The
Order Gateway state is the list of payment-intent ids already attached to the
order; the attach operation is idempotent in the sense of the external
contract: re-attaching a recorded payment is a benign error that does not
duplicate the record. -/

/-- Complete correlation metadata, as set when the payment was initiated. -/
def fullMeta : PaymentIntentMetadata :=
  { channelToken := some "t1", orderCode := some "ABC", orderId := some "42" }

/-- A payment intent with full correlation metadata. -/
def okIntent : PaymentIntent := { id := "pi_123", metadata := some fullMeta }

/-- A well-formed succeeded event. -/
def okEvent : StripeEvent :=
  { type := "payment_intent.succeeded", object := some okIntent }

/-- A payment-failed event carrying a gateway-supplied failure reason. -/
def failedEvent : StripeEvent :=
  { type := "payment_intent.payment_failed"
    object := some { id := "pi_123", metadata := some fullMeta
                     last_payment_error := some { message := some "card_declined" } } }

/-- An event of a type outside the known succeeded/failed set. -/
def otherEvent : StripeEvent :=
  { type := "charge.refunded", object := some okIntent }

/-- A succeeded event whose metadata lacks both the tenant token and the
order identifier. -/
def noCorrelationEvent : StripeEvent :=
  { type := "payment_intent.succeeded"
    object := some { id := "pi_123", metadata := some { orderCode := some "ABC" } } }

/-- A configured payment method whose handler is the Stripe handler. -/
def stripeMethod : PaymentMethod :=
  { code := "stripe-payment", handlerCode := stripeHandlerCode }

/-- Concrete environment: signature verification yields `ev`; transition
always succeeds and leaves the state unchanged; attach records the payment
id once and reports a benign error on re-attach. -/
def testEnv (ev : StripeEvent) : Env (List String) :=
  { constructEventFromPayload := fun _ _ => .ok ev
    getChannelFromToken := fun tok => .ok { token := optStr tok }
    transitionToState := fun _ _ _ s => (.ok, s)
    findPaymentMethods := fun _ => [stripeMethod]
    addPaymentToOrder := fun _ _ _ pid s =>
      if s.contains pid then (.err "payment already added", s) else (.ok, pid :: s)
    payments := fun s => s }

/-- Variant of `testEnv` with no configured payment method at all. -/
def testEnvNoHandler (ev : StripeEvent) : Env (List String) :=
  { testEnv ev with findPaymentMethods := fun _ => [] }

example :
    (webhook (testEnv okEvent) [] (some "sig") []).outcome = Outcome.succeeded := by decide

example :
    (webhook (testEnv okEvent) [] (some "sig") []).state = ["pi_123"] := by decide

example :
    (webhook (testEnv failedEvent) [] (some "sig") []).outcome = Outcome.ignoredPaymentFailed := by
  decide

example :
    (webhook (testEnv noCorrelationEvent) [] (some "sig") []).outcome = Outcome.succeeded := by
  decide

/-! ### Claims -/

/-- C7: for every delivery with an absent signature header, the pipeline
terminates immediately with outcome `rejectedMissingSignature` and a 400
response, invoking neither signature verification nor any downstream
collaborator (the call trace is empty) and leaving the gateway state
untouched. -/
theorem webhook_missing_signature_rejected {σ : Type} (env : Env σ) (s0 : σ)
    (rawBody : List Nat) :
    webhook env s0 none rawBody =
      { outcome := .rejectedMissingSignature
        response := some (httpBadRequest, missingHeaderErrorMessage)
        logs := [⟨.error, missingHeaderErrorMessage⟩]
        calls := []
        state := s0 } := rfl

/-- C10: for every channel token (hence regardless of the delivery's
content), the request context built by `createContext` carries full
administrative authorization: apiType `admin`, `isAuthorized` true and
`authorizedAsOwnerOnly` false. -/
theorem createContext_grants_full_admin {σ : Type} (env : Env σ)
    (channelToken : Option String) (ctx : RequestContext)
    (h : createContext env channelToken = .ok ctx) :
    ctx.apiType = "admin" ∧ ctx.isAuthorized = true ∧ ctx.authorizedAsOwnerOnly = false := by
  unfold createContext at h
  cases hg : env.getChannelFromToken channelToken with
  | error m => rw [hg] at h; cases h
  | ok ch =>
    rw [hg] at h
    cases h
    exact ⟨rfl, rfl, rfl⟩

theorem createContext_grants_full_admin_witness :
    ({ apiType := "admin", isAuthorized := true, authorizedAsOwnerOnly := false
       channel := { token := "t1" }, languageCode := "en" } : RequestContext).apiType = "admin" ∧
    ({ apiType := "admin", isAuthorized := true, authorizedAsOwnerOnly := false
       channel := { token := "t1" }, languageCode := "en" } : RequestContext).isAuthorized = true ∧
    ({ apiType := "admin", isAuthorized := true, authorizedAsOwnerOnly := false
       channel := { token := "t1" }, languageCode := "en" } : RequestContext).authorizedAsOwnerOnly = false :=
  createContext_grants_full_admin (testEnv okEvent) (some "t1")
    { apiType := "admin", isAuthorized := true, authorizedAsOwnerOnly := false
      channel := { token := "t1" }, languageCode := "en" } (by rfl)

/-- C2 (code bug evidence): on ignored terminal outcomes the handler writes
no HTTP response at all.  For a verified payment-failed event the outcome is
`ignoredPaymentFailed` with `response = none`, and for an unrecognized event
type the outcome is `ignoredOtherEvent` with `response = none`: since the
response object is injected, nothing — in particular no 2xx — is ever sent
to the sender on these paths. -/
theorem webhook_ignored_outcome_sends_no_response :
    (webhook (testEnv failedEvent) [] (some "sig") []).outcome = Outcome.ignoredPaymentFailed ∧
    (webhook (testEnv failedEvent) [] (some "sig") []).response = none ∧
    (webhook (testEnv otherEvent) [] (some "sig") []).outcome = Outcome.ignoredOtherEvent ∧
    (webhook (testEnv otherEvent) [] (some "sig") []).response = none ∧
    (webhook (testEnv okEvent) [] (some "sig") []).outcome = Outcome.succeeded ∧
    (webhook (testEnv okEvent) [] (some "sig") []).response = none := by
  decide

/-- C1 (counterexample): a validly-signed succeeded event whose correlation
metadata lacks both the tenant token and the order identifier is not
rejected as malformed; the pipeline resolves the tenant with the absent
token, calls the Order Gateway with the absent order identifier, and runs to
`succeeded`. -/
theorem webhook_missing_correlation_not_rejected_cex :
    (webhook (testEnv noCorrelationEvent) [] (some "sig") []).outcome = Outcome.succeeded ∧
    (webhook (testEnv noCorrelationEvent) [] (some "sig") []).outcome ≠
      Outcome.rejectedNoPaymentIntent ∧
    (webhook (testEnv noCorrelationEvent) [] (some "sig") []).response = none ∧
    ExtCall.getChannelFromToken none ∈
      (webhook (testEnv noCorrelationEvent) [] (some "sig") []).calls ∧
    ExtCall.transitionToState none "ArrangingPayment" true ∈
      (webhook (testEnv noCorrelationEvent) [] (some "sig") []).calls := by
  decide

/-- C3: every verified event of the payment-failed type (with its payment
intent present) yields the `ignoredPaymentFailed` outcome: the single log
entry is warning-level and ends with the gateway-supplied failure reason, the
trace contains only the verification call — so neither the order-state
transition nor the payment attach is ever invoked — and no response is
written. -/
theorem webhook_payment_failed_ignored {σ : Type} (env : Env σ) (s0 : σ)
    (sig : String) (rawBody : List Nat) (ev : StripeEvent) (p : PaymentIntent)
    (reason : String)
    (hc : env.constructEventFromPayload rawBody sig = .ok ev)
    (hobj : ev.object = some p)
    (hty : ev.type = "payment_intent.payment_failed")
    (hreason : p.last_payment_error.bind (fun e => e.message) = some reason) :
    webhook env s0 (some sig) rawBody =
      { outcome := .ignoredPaymentFailed
        response := none
        logs := [⟨.warn, "Payment for order " ++ optStr (p.metadata.bind fun m => m.orderCode) ++
                  " failed: " ++ reason⟩]
        calls := [.constructEvent]
        state := s0 } ∧
    (∀ oid target b, ExtCall.transitionToState oid target b ∉
      (webhook env s0 (some sig) rawBody).calls) ∧
    (∀ oid m pid b, ExtCall.addPaymentToOrder oid m pid b ∉
      (webhook env s0 (some sig) rawBody).calls) := by
  have hrun : webhook env s0 (some sig) rawBody =
      { outcome := .ignoredPaymentFailed
        response := none
        logs := [⟨.warn, "Payment for order " ++ optStr (p.metadata.bind fun m => m.orderCode) ++
                  " failed: " ++ reason⟩]
        calls := [.constructEvent]
        state := s0 } := by
    simp [webhook, hc, hobj, hty, hreason, optStr]
  refine ⟨hrun, ?_, ?_⟩ <;> intros <;> simp [hrun]

theorem webhook_payment_failed_ignored_witness :
    webhook (testEnv failedEvent) [] (some "sig") [] =
      { outcome := .ignoredPaymentFailed
        response := none
        logs := [⟨.warn, "Payment for order ABC failed: card_declined"⟩]
        calls := [.constructEvent]
        state := [] } ∧
    (∀ oid target b, ExtCall.transitionToState oid target b ∉
      (webhook (testEnv failedEvent) [] (some "sig") []).calls) ∧
    (∀ oid m pid b, ExtCall.addPaymentToOrder oid m pid b ∉
      (webhook (testEnv failedEvent) [] (some "sig") []).calls) :=
  webhook_payment_failed_ignored (testEnv failedEvent) [] "sig" [] failedEvent
    { id := "pi_123", metadata := some fullMeta
      last_payment_error := some { message := some "card_declined" } }
    "card_declined" rfl rfl rfl rfl

/-- C6: every verified event (with its payment intent present) whose type is
neither the succeeded tag nor the failed tag — whatever that type is — yields
the `ignoredOtherEvent` outcome with a single info-level log entry and a
trace containing only the verification call, so no downstream call is made
and no rejection outcome is ever produced for such a type. -/
theorem webhook_unrecognized_type_ignored {σ : Type} (env : Env σ) (s0 : σ)
    (sig : String) (rawBody : List Nat) (ev : StripeEvent) (p : PaymentIntent)
    (hc : env.constructEventFromPayload rawBody sig = .ok ev)
    (hobj : ev.object = some p)
    (hne1 : ev.type ≠ "payment_intent.payment_failed")
    (hne2 : ev.type ≠ "payment_intent.succeeded") :
    webhook env s0 (some sig) rawBody =
      { outcome := .ignoredOtherEvent
        response := none
        logs := [⟨.info, "Received " ++ ev.type ++ " status update for order " ++
                  optStr (p.metadata.bind fun m => m.orderCode)⟩]
        calls := [.constructEvent]
        state := s0 } ∧
    (webhook env s0 (some sig) rawBody).outcome ≠ Outcome.rejectedMissingSignature ∧
    (webhook env s0 (some sig) rawBody).outcome ≠ Outcome.rejectedSignatureMismatch ∧
    (webhook env s0 (some sig) rawBody).outcome ≠ Outcome.rejectedNoPaymentIntent := by
  have hrun : webhook env s0 (some sig) rawBody =
      { outcome := .ignoredOtherEvent
        response := none
        logs := [⟨.info, "Received " ++ ev.type ++ " status update for order " ++
                  optStr (p.metadata.bind fun m => m.orderCode)⟩]
        calls := [.constructEvent]
        state := s0 } := by
    simp [webhook, hc, hobj, hne1, hne2]
  refine ⟨hrun, ?_, ?_, ?_⟩ <;> simp [hrun]

theorem webhook_unrecognized_type_ignored_witness :
    webhook (testEnv otherEvent) [] (some "sig") [] =
      { outcome := .ignoredOtherEvent
        response := none
        logs := [⟨.info, "Received charge.refunded status update for order ABC"⟩]
        calls := [.constructEvent]
        state := [] } ∧
    (webhook (testEnv otherEvent) [] (some "sig") []).outcome ≠
      Outcome.rejectedMissingSignature ∧
    (webhook (testEnv otherEvent) [] (some "sig") []).outcome ≠
      Outcome.rejectedSignatureMismatch ∧
    (webhook (testEnv otherEvent) [] (some "sig") []).outcome ≠
      Outcome.rejectedNoPaymentIntent :=
  webhook_unrecognized_type_ignored (testEnv otherEvent) [] "sig" [] otherEvent okIntent
    rfl rfl (by decide) (by decide)

/-- C8: for every succeeded event that reaches the handler-lookup step (the
transition succeeded) while the tenant has zero configured payment methods
whose handler code equals the Stripe handler code, the run terminates by
throwing the `InternalServerError` message — an outcome distinct from the
logged domain failures `transitionFailed` and `attachFailed`, with nothing
logged by the controller itself and no payment attached. -/
theorem webhook_handler_not_configured_throws {σ : Type} (env : Env σ) (s0 : σ)
    (sig : String) (rawBody : List Nat) (ev : StripeEvent) (p : PaymentIntent)
    (ctx : RequestContext) (s1 : σ)
    (hc : env.constructEventFromPayload rawBody sig = .ok ev)
    (hobj : ev.object = some p)
    (hty : ev.type = "payment_intent.succeeded")
    (hcc : createContext env (p.metadata.bind fun m => m.channelToken) = .ok ctx)
    (htr : env.transitionToState ctx (p.metadata.bind fun m => m.orderId)
      "ArrangingPayment" s0 = (.ok, s1))
    (hfind : (env.findPaymentMethods ctx).find?
      (fun m => m.handlerCode == stripeHandlerCode) = none) :
    webhook env s0 (some sig) rawBody =
      { outcome := .threw ("[" ++ loggerCtx ++ "] Could not find Stripe PaymentMethod")
        response := none
        logs := []
        calls := [.constructEvent,
                  .getChannelFromToken (p.metadata.bind fun m => m.channelToken),
                  .transitionToState (p.metadata.bind fun m => m.orderId) "ArrangingPayment" true,
                  .findPaymentMethods]
        state := s1 } ∧
    (webhook env s0 (some sig) rawBody).outcome ≠ Outcome.transitionFailed ∧
    (webhook env s0 (some sig) rawBody).outcome ≠ Outcome.attachFailed := by
  have hne1 : ev.type ≠ "payment_intent.payment_failed" := by rw [hty]; decide
  have hrun : webhook env s0 (some sig) rawBody =
      { outcome := .threw ("[" ++ loggerCtx ++ "] Could not find Stripe PaymentMethod")
        response := none
        logs := []
        calls := [.constructEvent,
                  .getChannelFromToken (p.metadata.bind fun m => m.channelToken),
                  .transitionToState (p.metadata.bind fun m => m.orderId) "ArrangingPayment" true,
                  .findPaymentMethods]
        state := s1 } := by
    simp [webhook, getPaymentMethod, hc, hobj, hty, hne1, hcc, htr, hfind]
  refine ⟨hrun, ?_, ?_⟩ <;> simp [hrun]

theorem webhook_handler_not_configured_throws_witness :
    webhook (testEnvNoHandler okEvent) [] (some "sig") [] =
      { outcome := .threw ("[" ++ loggerCtx ++ "] Could not find Stripe PaymentMethod")
        response := none
        logs := []
        calls := [.constructEvent,
                  .getChannelFromToken (some "t1"),
                  .transitionToState (some "42") "ArrangingPayment" true,
                  .findPaymentMethods]
        state := [] } ∧
    (webhook (testEnvNoHandler okEvent) [] (some "sig") []).outcome ≠
      Outcome.transitionFailed ∧
    (webhook (testEnvNoHandler okEvent) [] (some "sig") []).outcome ≠
      Outcome.attachFailed :=
  webhook_handler_not_configured_throws (testEnvNoHandler okEvent) [] "sig" [] okEvent
    okIntent
    { apiType := "admin", isAuthorized := true, authorizedAsOwnerOnly := false
      channel := { token := "t1" }, languageCode := "en" }
    [] rfl rfl rfl rfl rfl rfl

/-- C1 (amended): a verified succeeded event whose correlation metadata lacks
the tenant token or the order identifier is not rejected: the pipeline
proceeds past classification, invoking tenant resolution with the absent
token (and hence the Order Gateway afterwards), produces no rejection outcome
and writes no response. -/
theorem webhook_missing_correlation_proceeds {σ : Type} (env : Env σ) (s0 : σ)
    (sig : String) (rawBody : List Nat) (ev : StripeEvent) (p : PaymentIntent)
    (hc : env.constructEventFromPayload rawBody sig = .ok ev)
    (hobj : ev.object = some p)
    (hty : ev.type = "payment_intent.succeeded")
    (_hmiss : p.metadata.bind (fun m => m.channelToken) = none ∨
              p.metadata.bind (fun m => m.orderId) = none) :
    ExtCall.getChannelFromToken (p.metadata.bind fun m => m.channelToken) ∈
      (webhook env s0 (some sig) rawBody).calls ∧
    (webhook env s0 (some sig) rawBody).outcome ≠ Outcome.rejectedMissingSignature ∧
    (webhook env s0 (some sig) rawBody).outcome ≠ Outcome.rejectedSignatureMismatch ∧
    (webhook env s0 (some sig) rawBody).outcome ≠ Outcome.rejectedNoPaymentIntent ∧
    (webhook env s0 (some sig) rawBody).response = none := by
  have hne1 : ev.type ≠ "payment_intent.payment_failed" := by rw [hty]; decide
  cases hcc : createContext env (p.metadata.bind fun m => m.channelToken) with
  | error em => simp [webhook, hc, hobj, hty, hne1, hcc]
  | ok ctx =>
    cases htr : env.transitionToState ctx (p.metadata.bind fun m => m.orderId)
        "ArrangingPayment" s0 with
    | mk tr s1 =>
      cases tr with
      | transitionError em => simp [webhook, hc, hobj, hty, hne1, hcc, htr]
      | ok =>
        cases hpm : getPaymentMethod env ctx with
        | error em => simp [webhook, hc, hobj, hty, hne1, hcc, htr, hpm]
        | ok method =>
          cases hat : env.addPaymentToOrder ctx (p.metadata.bind fun m => m.orderId)
              method.code p.id s1 with
          | mk ar s2 =>
            cases ar with
            | ok => simp [webhook, hc, hobj, hty, hne1, hcc, htr, hpm, hat]
            | err em => simp [webhook, hc, hobj, hty, hne1, hcc, htr, hpm, hat]

theorem webhook_missing_correlation_proceeds_witness :
    ExtCall.getChannelFromToken none ∈
      (webhook (testEnv noCorrelationEvent) [] (some "sig") []).calls ∧
    (webhook (testEnv noCorrelationEvent) [] (some "sig") []).outcome ≠
      Outcome.rejectedMissingSignature ∧
    (webhook (testEnv noCorrelationEvent) [] (some "sig") []).outcome ≠
      Outcome.rejectedSignatureMismatch ∧
    (webhook (testEnv noCorrelationEvent) [] (some "sig") []).outcome ≠
      Outcome.rejectedNoPaymentIntent ∧
    (webhook (testEnv noCorrelationEvent) [] (some "sig") []).response = none :=
  webhook_missing_correlation_proceeds (testEnv noCorrelationEvent) [] "sig" []
    noCorrelationEvent { id := "pi_123", metadata := some { orderCode := some "ABC" } }
    rfl rfl rfl (Or.inl rfl)

/-- C5: in every run of the pipeline, a payment-attach call appears in the
trace only at position 4, with the successful order-state transition at
position 2 before it; and whenever the transition reported an error, the
outcome is `transitionFailed`, the domain error detail returned by the
gateway is the logged message's tail, and no payment-attach call occurs at
all. -/
theorem webhook_attach_only_after_transition_ok {σ : Type} (env : Env σ) (s0 : σ)
    (sg : Option String) (rawBody : List Nat) :
    (∀ oid m pid b, ExtCall.addPaymentToOrder oid m pid b ∈
        (webhook env s0 sg rawBody).calls →
       (webhook env s0 sg rawBody).calls[2]? =
         some (.transitionToState oid "ArrangingPayment" true) ∧
       (webhook env s0 sg rawBody).calls[4]? =
         some (.addPaymentToOrder oid m pid b)) ∧
    (∀ oid target, ExtCall.transitionToState oid target false ∈
        (webhook env s0 sg rawBody).calls →
       (webhook env s0 sg rawBody).outcome = Outcome.transitionFailed ∧
       (∃ ctx emsg, env.transitionToState ctx oid target s0 =
           (.transitionError emsg, (webhook env s0 sg rawBody).state) ∧
         ∃ oc, (webhook env s0 sg rawBody).logs =
           [⟨.error, "Error transitioning order " ++ oc ++
             " to ArrangingPayment state: " ++ emsg⟩]) ∧
       (∀ oid2 m pid b, ExtCall.addPaymentToOrder oid2 m pid b ∉
         (webhook env s0 sg rawBody).calls)) := by
  cases sg with
  | none =>
    refine ⟨?_, ?_⟩ <;> intros <;> simp_all [webhook]
  | some sig =>
    cases hc : env.constructEventFromPayload rawBody sig with
    | error em =>
      refine ⟨?_, ?_⟩ <;> intros <;> simp_all [webhook]
    | ok ev =>
      cases hobj : ev.object with
      | none =>
        refine ⟨?_, ?_⟩ <;> intros <;> simp_all [webhook]
      | some p =>
        by_cases hty1 : ev.type = "payment_intent.payment_failed"
        · refine ⟨?_, ?_⟩ <;> intros <;> simp_all [webhook]
        · by_cases hty2 : ev.type = "payment_intent.succeeded"
          · cases hcc : createContext env (p.metadata.bind fun m => m.channelToken) with
            | error em =>
              refine ⟨?_, ?_⟩ <;> intros <;> simp_all [webhook]
            | ok ctx =>
              cases htr : env.transitionToState ctx (p.metadata.bind fun m => m.orderId)
                  "ArrangingPayment" s0 with
              | mk tr s1 =>
                cases tr with
                | transitionError em =>
                  have hrun : webhook env s0 (some sig) rawBody =
                      { outcome := .transitionFailed
                        response := none
                        logs := [⟨.error, "Error transitioning order " ++
                                  optStr (p.metadata.bind fun m => m.orderCode) ++
                                  " to ArrangingPayment state: " ++ em⟩]
                        calls := [.constructEvent,
                                  .getChannelFromToken (p.metadata.bind fun m => m.channelToken),
                                  .transitionToState (p.metadata.bind fun m => m.orderId)
                                    "ArrangingPayment" false]
                        state := s1 } := by
                    simp [webhook, hc, hobj, hty1, hty2, hcc, htr]
                  refine ⟨?_, ?_⟩
                  · intro oid m pid b hmem
                    rw [hrun] at hmem
                    simp at hmem
                  · intro oid target hmem
                    rw [hrun] at hmem
                    simp at hmem
                    obtain ⟨hoid, htgt⟩ := hmem
                    subst hoid htgt
                    rw [hrun]
                    refine ⟨rfl, ⟨ctx, em, htr, optStr (p.metadata.bind fun m => m.orderCode), rfl⟩, ?_⟩
                    intro oid2 m pid b
                    simp
                | ok =>
                  cases hpm : getPaymentMethod env ctx with
                  | error em =>
                    refine ⟨?_, ?_⟩ <;> intros <;>
                      simp_all [webhook, hc, hobj, hty1, hty2, hcc, htr, hpm]
                  | ok method =>
                    cases hat : env.addPaymentToOrder ctx
                        (p.metadata.bind fun m => m.orderId) method.code p.id s1 with
                    | mk ar s2 =>
                      cases ar with
                      | ok =>
                        have hrun : webhook env s0 (some sig) rawBody =
                            { outcome := .succeeded
                              response := none
                              logs := [⟨.info, "Stripe payment intent id " ++ p.id ++
                                        " added to order " ++
                                        optStr (p.metadata.bind fun m => m.orderCode)⟩]
                              calls := [.constructEvent,
                                        .getChannelFromToken
                                          (p.metadata.bind fun m => m.channelToken),
                                        .transitionToState
                                          (p.metadata.bind fun m => m.orderId)
                                          "ArrangingPayment" true,
                                        .findPaymentMethods,
                                        .addPaymentToOrder
                                          (p.metadata.bind fun m => m.orderId)
                                          method.code p.id true]
                              state := s2 } := by
                          simp [webhook, hc, hobj, hty1, hty2, hcc, htr, hpm, hat]
                        refine ⟨?_, ?_⟩
                        · intro oid m pid b hmem
                          rw [hrun] at hmem
                          simp at hmem
                          obtain ⟨hoid, hm, hpid, hb⟩ := hmem
                          subst hoid hm hpid hb
                          rw [hrun]
                          exact ⟨rfl, rfl⟩
                        · intro oid target hmem
                          rw [hrun] at hmem
                          simp at hmem
                      | err em =>
                        have hrun : webhook env s0 (some sig) rawBody =
                            { outcome := .attachFailed
                              response := none
                              logs := [⟨.error, "Error adding payment to order " ++
                                        optStr (p.metadata.bind fun m => m.orderCode) ++
                                        ": " ++ em⟩]
                              calls := [.constructEvent,
                                        .getChannelFromToken
                                          (p.metadata.bind fun m => m.channelToken),
                                        .transitionToState
                                          (p.metadata.bind fun m => m.orderId)
                                          "ArrangingPayment" true,
                                        .findPaymentMethods,
                                        .addPaymentToOrder
                                          (p.metadata.bind fun m => m.orderId)
                                          method.code p.id false]
                              state := s2 } := by
                          simp [webhook, hc, hobj, hty1, hty2, hcc, htr, hpm, hat]
                        refine ⟨?_, ?_⟩
                        · intro oid m pid b hmem
                          rw [hrun] at hmem
                          simp at hmem
                          obtain ⟨hoid, hm, hpid, hb⟩ := hmem
                          subst hoid hm hpid hb
                          rw [hrun]
                          exact ⟨rfl, rfl⟩
                        · intro oid target hmem
                          rw [hrun] at hmem
                          simp at hmem
          · refine ⟨?_, ?_⟩ <;> intros <;> simp_all [webhook]

theorem webhook_attach_only_after_transition_ok_witness :
    (webhook (testEnv okEvent) [] (some "sig") []).calls[2]? =
      some (.transitionToState (some "42") "ArrangingPayment" true) ∧
    (webhook (testEnv okEvent) [] (some "sig") []).calls[4]? =
      some (.addPaymentToOrder (some "42") "stripe-payment" "pi_123" true) :=
  (webhook_attach_only_after_transition_ok (testEnv okEvent) [] (some "sig") []).1
    (some "42") "stripe-payment" "pi_123" true (by decide)

/-- C9: in every run whose trace contains a failed payment-attach call, the
outcome is `attachFailed`, the failed attach is the last external call of the
run (so no rollback or compensating call follows it), the final gateway
state is exactly the state returned by that attach call — the order stays as
the earlier successful transition (to ArrangingPayment) left it — and the
gateway's error detail is the logged message's tail. -/
theorem webhook_attach_failure_terminal {σ : Type} (env : Env σ) (s0 : σ)
    (sg : Option String) (rawBody : List Nat) (oid : Option String) (m pid : String)
    (hmem : ExtCall.addPaymentToOrder oid m pid false ∈
      (webhook env s0 sg rawBody).calls) :
    (webhook env s0 sg rawBody).outcome = Outcome.attachFailed ∧
    (webhook env s0 sg rawBody).calls.getLast? =
      some (.addPaymentToOrder oid m pid false) ∧
    (∃ ctx s1 emsg,
       env.transitionToState ctx oid "ArrangingPayment" s0 = (.ok, s1) ∧
       env.addPaymentToOrder ctx oid m pid s1 =
         (.err emsg, (webhook env s0 sg rawBody).state) ∧
       ∃ oc, (webhook env s0 sg rawBody).logs =
         [⟨.error, "Error adding payment to order " ++ oc ++ ": " ++ emsg⟩]) := by
  cases sg with
  | none => simp [webhook] at hmem
  | some sig =>
    cases hc : env.constructEventFromPayload rawBody sig with
    | error em => simp [webhook, hc] at hmem
    | ok ev =>
      cases hobj : ev.object with
      | none => simp [webhook, hc, hobj] at hmem
      | some p =>
        by_cases hty1 : ev.type = "payment_intent.payment_failed"
        · simp [webhook, hc, hobj, hty1] at hmem
        · by_cases hty2 : ev.type = "payment_intent.succeeded"
          · cases hcc : createContext env (p.metadata.bind fun mm => mm.channelToken) with
            | error em => simp [webhook, hc, hobj, hty1, hty2, hcc] at hmem
            | ok ctx =>
              cases htr : env.transitionToState ctx (p.metadata.bind fun mm => mm.orderId)
                  "ArrangingPayment" s0 with
              | mk tr s1 =>
                cases tr with
                | transitionError em =>
                  simp [webhook, hc, hobj, hty1, hty2, hcc, htr] at hmem
                | ok =>
                  cases hpm : getPaymentMethod env ctx with
                  | error em =>
                    simp [webhook, hc, hobj, hty1, hty2, hcc, htr, hpm] at hmem
                  | ok method =>
                    cases hat : env.addPaymentToOrder ctx
                        (p.metadata.bind fun mm => mm.orderId) method.code p.id s1 with
                    | mk ar s2 =>
                      cases ar with
                      | ok =>
                        simp [webhook, hc, hobj, hty1, hty2, hcc, htr, hpm, hat] at hmem
                      | err em =>
                        have hrun : webhook env s0 (some sig) rawBody =
                            { outcome := .attachFailed
                              response := none
                              logs := [⟨.error, "Error adding payment to order " ++
                                        optStr (p.metadata.bind fun mm => mm.orderCode) ++
                                        ": " ++ em⟩]
                              calls := [.constructEvent,
                                        .getChannelFromToken
                                          (p.metadata.bind fun mm => mm.channelToken),
                                        .transitionToState
                                          (p.metadata.bind fun mm => mm.orderId)
                                          "ArrangingPayment" true,
                                        .findPaymentMethods,
                                        .addPaymentToOrder
                                          (p.metadata.bind fun mm => mm.orderId)
                                          method.code p.id false]
                              state := s2 } := by
                          simp [webhook, hc, hobj, hty1, hty2, hcc, htr, hpm, hat]
                        rw [hrun] at hmem
                        simp at hmem
                        obtain ⟨hoid, hm, hpid⟩ := hmem
                        subst hoid hm hpid
                        rw [hrun]
                        exact ⟨rfl, rfl, ctx, s1, em, htr, hat,
                          optStr (p.metadata.bind fun mm => mm.orderCode), rfl⟩
          · simp [webhook, hc, hobj, hty1, hty2] at hmem

theorem webhook_attach_failure_terminal_witness :
    (webhook (testEnv okEvent) ["pi_123"] (some "sig") []).outcome =
      Outcome.attachFailed ∧
    (webhook (testEnv okEvent) ["pi_123"] (some "sig") []).calls.getLast? =
      some (.addPaymentToOrder (some "42") "stripe-payment" "pi_123" false) ∧
    (∃ ctx s1 emsg,
       (testEnv okEvent).transitionToState ctx (some "42") "ArrangingPayment" ["pi_123"] =
         (.ok, s1) ∧
       (testEnv okEvent).addPaymentToOrder ctx (some "42") "stripe-payment" "pi_123" s1 =
         (.err emsg, (webhook (testEnv okEvent) ["pi_123"] (some "sig") []).state) ∧
       ∃ oc, (webhook (testEnv okEvent) ["pi_123"] (some "sig") []).logs =
         [⟨.error, "Error adding payment to order " ++ oc ++ ": " ++ emsg⟩]) :=
  webhook_attach_failure_terminal (testEnv okEvent) ["pi_123"] (some "sig") []
    (some "42") "stripe-payment" "pi_123" (by decide)

/-- C4: for a validly-signed succeeded delivery on which the pipeline runs to
`succeeded`, re-running the identical delivery from the resulting gateway
state — under the external contract that the transition creates no payment
record and that attaching an already-recorded payment never duplicates it —
again terminates in a non-fatal, logged outcome (`succeeded`,
`transitionFailed` or `attachFailed`, never a thrown fault or a rejection),
and leaves the set of payment records exactly as the first run left it: no
duplicate payment record is ever created. -/
theorem webhook_duplicate_delivery_idempotent {σ : Type} (env : Env σ)
    (s0 s1 s2 : σ) (sig : String) (rawBody : List Nat) (ev : StripeEvent)
    (p : PaymentIntent) (tok oid : Option String) (ctx : RequestContext)
    (pm : PaymentMethod)
    (hc : env.constructEventFromPayload rawBody sig = .ok ev)
    (hobj : ev.object = some p)
    (hty : ev.type = "payment_intent.succeeded")
    (htok : p.metadata.bind (fun m => m.channelToken) = tok)
    (hoid : p.metadata.bind (fun m => m.orderId) = oid)
    (hcc : createContext env tok = .ok ctx)
    (htr1 : env.transitionToState ctx oid "ArrangingPayment" s0 = (.ok, s1))
    (hpm : getPaymentMethod env ctx = .ok pm)
    (hat1 : env.addPaymentToOrder ctx oid pm.code p.id s1 = (.ok, s2))
    (hrec : p.id ∈ env.payments s2)
    (htp : ∀ s, env.payments (env.transitionToState ctx oid "ArrangingPayment" s).2 =
      env.payments s)
    (hidem : ∀ s, p.id ∈ env.payments s →
      env.payments (env.addPaymentToOrder ctx oid pm.code p.id s).2 = env.payments s) :
    (webhook env s0 (some sig) rawBody).outcome = Outcome.succeeded ∧
    ((webhook env (webhook env s0 (some sig) rawBody).state (some sig) rawBody).outcome =
        Outcome.succeeded ∨
      (webhook env (webhook env s0 (some sig) rawBody).state (some sig) rawBody).outcome =
        Outcome.transitionFailed ∨
      (webhook env (webhook env s0 (some sig) rawBody).state (some sig) rawBody).outcome =
        Outcome.attachFailed) ∧
    (webhook env (webhook env s0 (some sig) rawBody).state (some sig) rawBody).logs ≠ [] ∧
    env.payments
      (webhook env (webhook env s0 (some sig) rawBody).state (some sig) rawBody).state =
      env.payments (webhook env s0 (some sig) rawBody).state := by
  have hne1 : ev.type ≠ "payment_intent.payment_failed" := by rw [hty]; decide
  subst htok hoid
  have hrun1 : webhook env s0 (some sig) rawBody =
      { outcome := .succeeded
        response := none
        logs := [⟨.info, "Stripe payment intent id " ++ p.id ++ " added to order " ++
                  optStr (p.metadata.bind fun m => m.orderCode)⟩]
        calls := [.constructEvent,
                  .getChannelFromToken (p.metadata.bind fun m => m.channelToken),
                  .transitionToState (p.metadata.bind fun m => m.orderId)
                    "ArrangingPayment" true,
                  .findPaymentMethods,
                  .addPaymentToOrder (p.metadata.bind fun m => m.orderId)
                    pm.code p.id true]
        state := s2 } := by
    simp [webhook, hc, hobj, hty, hne1, hcc, htr1, hpm, hat1]
  have hstate1 : (webhook env s0 (some sig) rawBody).state = s2 := by rw [hrun1]
  have houtcome1 : (webhook env s0 (some sig) rawBody).outcome = Outcome.succeeded := by
    rw [hrun1]
  rw [hstate1]
  refine ⟨houtcome1, ?_⟩
  cases htr2 : env.transitionToState ctx (p.metadata.bind fun m => m.orderId)
      "ArrangingPayment" s2 with
  | mk tr s3 =>
    have hps3 : env.payments s3 = env.payments s2 := by
      have h := htp s2
      rw [htr2] at h
      exact h
    cases tr with
    | transitionError em =>
      have hrun2 : webhook env s2 (some sig) rawBody =
          { outcome := .transitionFailed
            response := none
            logs := [⟨.error, "Error transitioning order " ++
                      optStr (p.metadata.bind fun m => m.orderCode) ++
                      " to ArrangingPayment state: " ++ em⟩]
            calls := [.constructEvent,
                      .getChannelFromToken (p.metadata.bind fun m => m.channelToken),
                      .transitionToState (p.metadata.bind fun m => m.orderId)
                        "ArrangingPayment" false]
            state := s3 } := by
        simp [webhook, hc, hobj, hty, hne1, hcc, htr2]
      rw [hrun2]
      exact ⟨Or.inr (Or.inl rfl), by simp, hps3⟩
    | ok =>
      cases hat2 : env.addPaymentToOrder ctx (p.metadata.bind fun m => m.orderId)
          pm.code p.id s3 with
      | mk ar s4 =>
        have hmem3 : p.id ∈ env.payments s3 := hps3 ▸ hrec
        have hps4 : env.payments s4 = env.payments s3 := by
          have h := hidem s3 hmem3
          rw [hat2] at h
          exact h
        cases ar with
        | ok =>
          have hrun2 : webhook env s2 (some sig) rawBody =
              { outcome := .succeeded
                response := none
                logs := [⟨.info, "Stripe payment intent id " ++ p.id ++
                          " added to order " ++
                          optStr (p.metadata.bind fun m => m.orderCode)⟩]
                calls := [.constructEvent,
                          .getChannelFromToken (p.metadata.bind fun m => m.channelToken),
                          .transitionToState (p.metadata.bind fun m => m.orderId)
                            "ArrangingPayment" true,
                          .findPaymentMethods,
                          .addPaymentToOrder (p.metadata.bind fun m => m.orderId)
                            pm.code p.id true]
                state := s4 } := by
            simp [webhook, hc, hobj, hty, hne1, hcc, htr2, hpm, hat2]
          rw [hrun2]
          exact ⟨Or.inl rfl, by simp, by rw [show
            ({ outcome := Outcome.succeeded, response := none
               logs := [⟨.info, "Stripe payment intent id " ++ p.id ++
                        " added to order " ++
                        optStr (p.metadata.bind fun m => m.orderCode)⟩]
               calls := [.constructEvent,
                         .getChannelFromToken (p.metadata.bind fun m => m.channelToken),
                         .transitionToState (p.metadata.bind fun m => m.orderId)
                           "ArrangingPayment" true,
                         .findPaymentMethods,
                         .addPaymentToOrder (p.metadata.bind fun m => m.orderId)
                           pm.code p.id true]
               state := s4 } : RunResult σ).state = s4 from rfl, hps4, hps3]⟩
        | err em =>
          have hrun2 : webhook env s2 (some sig) rawBody =
              { outcome := .attachFailed
                response := none
                logs := [⟨.error, "Error adding payment to order " ++
                          optStr (p.metadata.bind fun m => m.orderCode) ++ ": " ++ em⟩]
                calls := [.constructEvent,
                          .getChannelFromToken (p.metadata.bind fun m => m.channelToken),
                          .transitionToState (p.metadata.bind fun m => m.orderId)
                            "ArrangingPayment" true,
                          .findPaymentMethods,
                          .addPaymentToOrder (p.metadata.bind fun m => m.orderId)
                            pm.code p.id false]
                state := s4 } := by
            simp [webhook, hc, hobj, hty, hne1, hcc, htr2, hpm, hat2]
          rw [hrun2]
          refine ⟨Or.inr (Or.inr rfl), by simp, ?_⟩
          show env.payments s4 = env.payments s2
          rw [hps4, hps3]

theorem webhook_duplicate_delivery_idempotent_witness :
    (webhook (testEnv okEvent) [] (some "sig") []).outcome = Outcome.succeeded ∧
    ((webhook (testEnv okEvent) (webhook (testEnv okEvent) [] (some "sig") []).state
        (some "sig") []).outcome = Outcome.succeeded ∨
      (webhook (testEnv okEvent) (webhook (testEnv okEvent) [] (some "sig") []).state
        (some "sig") []).outcome = Outcome.transitionFailed ∨
      (webhook (testEnv okEvent) (webhook (testEnv okEvent) [] (some "sig") []).state
        (some "sig") []).outcome = Outcome.attachFailed) ∧
    (webhook (testEnv okEvent) (webhook (testEnv okEvent) [] (some "sig") []).state
      (some "sig") []).logs ≠ [] ∧
    (testEnv okEvent).payments
      (webhook (testEnv okEvent) (webhook (testEnv okEvent) [] (some "sig") []).state
        (some "sig") []).state =
      (testEnv okEvent).payments (webhook (testEnv okEvent) [] (some "sig") []).state :=
  webhook_duplicate_delivery_idempotent (testEnv okEvent) [] [] ["pi_123"] "sig" []
    okEvent okIntent (some "t1") (some "42")
    { apiType := "admin", isAuthorized := true, authorizedAsOwnerOnly := false
      channel := { token := "t1" }, languageCode := "en" }
    stripeMethod rfl rfl rfl rfl rfl rfl rfl rfl rfl (by decide)
    (fun _ => rfl)
    (fun s h => by
      have h2 : "pi_123" ∈ s := h
      simp [testEnv, stripeMethod, okIntent, h2])

end StripeWebhook
